import Mathlib

/-!
# Verification of the agent-loop dashboard SSE stream client

Shallow embedding of the resilient stream client in
`src/apps/dashboard/.../sse.ts` (shipped as the second document of
`tests/setup.ts`): the two classes `RunEventStream` and `RunOutputStream`,
their reconnection/backoff state machine, event deduplication and resume
cursors.

Modelling conventions:
* JavaScript numbers used as timestamps and byte offsets are modelled as
  `Int`; backoff durations (always in 1000..30000 ms) as `Nat`.
* The nullable `eventSource` field is modelled as a list of open transports
  (each recorded by its URL); the nullable `reconnectTimeout` field as a
  list of pending timers (each recorded by its wait in ms).  The source
  fields hold at most one value; the list model lets the single-transport /
  single-timer invariants be stated and proved rather than hold by type.
* Consumer sinks (`onEvent`, `onOutput`, `onError`, `onReconnect`) are
  modelled by an emission trace: each handler returns the list of sink
  invocations it performs, in order.  A consumer callback that throws is
  modelled by a function giving, per value, the exception it raises (if
  any); the `try/catch` of the source `onmessage` handlers is translated
  literally, so a caught exception becomes an `onError` emission.
* `JSON.parse` outcomes are modelled by handing the `onmessage` handler an
  `Except String X`: `.error` is a message body that failed to parse.
-/

/-- JSON shape of a run event (`RunEvent` in `lib/types.ts`):
`{ id, run_id, step_id?, event_type, timestamp, payload }`.  The payload is
an opaque key-value map never inspected by the stream layer. -/
structure RunEvent where
  id : String
  run_id : String
  step_id : Option String
  event_type : String
  timestamp : Int
  payload : List (String × String)
deriving DecidableEq, Repr

/-- JSON shape of an output chunk (`OutputChunk` in the source):
`{ step_id, offset, content }`. -/
structure OutputChunk where
  step_id : String
  offset : Int
  content : String
deriving DecidableEq, Repr

/-- One sink invocation performed by a stream handler, in program order. -/
inductive Emit where
  | event (e : RunEvent)
  | output (c : OutputChunk)
  | error (msg : String)
  | reconnect
deriving DecidableEq, Repr

/-- A resource URL as built by `connect`: the base
`{API_BASE}/runs/{id}/{resource}` plus at most one query parameter set via
`url.searchParams.set`. -/
structure Url where
  base : String
  query : Option (String × String)
deriving DecidableEq, Repr

/-- `url.toString()`. -/
def Url.render (u : Url) : String :=
  match u.query with
  | none => u.base
  | some (k, v) => u.base ++ "?" ++ k ++ "=" ++ v

/-- `const API_BASE = 'http://127.0.0.1:7700'`. -/
def API_BASE : String := "http://127.0.0.1:7700"

/-- `const INITIAL_BACKOFF_MS = 1000`. -/
def INITIAL_BACKOFF_MS : Nat := 1000

/-- `const MAX_BACKOFF_MS = 30000`. -/
def MAX_BACKOFF_MS : Nat := 30000

/-- `const BACKOFF_MULTIPLIER = 2`. -/
def BACKOFF_MULTIPLIER : Nat := 2

/-- Mutable state of one `RunEventStream` instance. -/
structure RunEventStream where
  runId : String
  eventSource : List Url
  backoff : Nat
  reconnectTimeout : List Nat
  seenEventIds : List String
  connected : Bool
  lastEventTimestamp : Int
deriving DecidableEq, Repr

namespace RunEventStream

/-- Constructor: field initializers of the class. -/
def init (runId : String) : RunEventStream :=
  { runId := runId
    eventSource := []
    backoff := INITIAL_BACKOFF_MS
    reconnectTimeout := []
    seenEventIds := []
    connected := false
    lastEventTimestamp := 0 }

/-- The URL built by `connect`: `{API_BASE}/runs/{runId}/events`, with
`after=<t>` set iff `afterTimestamp !== undefined && afterTimestamp > 0`. -/
def eventsUrl (runId : String) (afterTimestamp : Option Int) : Url :=
  { base := API_BASE ++ "/runs/" ++ runId ++ "/events"
    query :=
      match afterTimestamp with
      | some t => if t > 0 then some ("after", toString t) else none
      | none => none }

/-- `connect(afterTimestamp?)`: no-op if a transport already exists,
otherwise builds the URL and opens a new `EventSource`. -/
def connect (st : RunEventStream) (afterTimestamp : Option Int) : RunEventStream :=
  if st.eventSource.isEmpty then
    { st with eventSource := [eventsUrl st.runId afterTimestamp] }
  else
    st

/-- The `onopen` handler: `_connected = true; backoff = INITIAL_BACKOFF_MS`. -/
def onOpen (st : RunEventStream) : RunEventStream :=
  { st with connected := true, backoff := INITIAL_BACKOFF_MS }

/-- The `onmessage` handler.  `msg` is the outcome of `JSON.parse(event.data)`;
`sinkThrows e` is the exception the consumer `onEvent` callback raises on
`e`, if any.  The whole body runs inside one `try`; the `catch` invokes
`onError`.  Returns the new state and the sink calls made. -/
def onMessage (st : RunEventStream) (msg : Except String RunEvent)
    (sinkThrows : RunEvent → Option String) : RunEventStream × List Emit :=
  match msg with
  | .error e => (st, [.error e])
  | .ok data =>
    if st.seenEventIds.contains data.id then
      (st, [])
    else
      let st1 : RunEventStream :=
        { st with
          seenEventIds := data.id :: st.seenEventIds
          lastEventTimestamp :=
            if data.timestamp > st.lastEventTimestamp then data.timestamp
            else st.lastEventTimestamp }
      match sinkThrows data with
      | some ex => (st1, [.event data, .error ex])
      | none => (st1, [.event data])

/-- `scheduleReconnect()`: no-op when a timer is already pending, otherwise
schedules one with the current backoff as its wait. -/
def scheduleReconnect (st : RunEventStream) : RunEventStream :=
  if st.reconnectTimeout.isEmpty then
    { st with reconnectTimeout := [st.backoff] }
  else
    st

/-- The `onerror` handler: `_connected = false`, close and discard the
transport, then `scheduleReconnect()`. -/
def onError (st : RunEventStream) : RunEventStream :=
  scheduleReconnect { st with connected := false, eventSource := [] }

/-- Body of the reconnect timer: clear the timer handle, invoke the
`onReconnect` sink, `connect(lastEventTimestamp)`, then advance the backoff
for the next potential failure. -/
def timerFires (st : RunEventStream) : RunEventStream × List Emit :=
  let st1 : RunEventStream := { st with reconnectTimeout := [] }
  let st2 := connect st1 (some st1.lastEventTimestamp)
  ({ st2 with backoff := min (st2.backoff * BACKOFF_MULTIPLIER) MAX_BACKOFF_MS },
   [.reconnect])

/-- `disconnect()`: clear any pending timer, close any open transport,
`_connected = false`.  Every operation in the source body is guarded or
total, so the handler is a total function. -/
def disconnect (st : RunEventStream) : RunEventStream :=
  { st with reconnectTimeout := [], eventSource := [], connected := false }

/-- Deliver a sequence of inbound messages on one open transport, in order. -/
def processMessages (st : RunEventStream) (msgs : List (Except String RunEvent))
    (sinkThrows : RunEvent → Option String) : RunEventStream × List Emit :=
  match msgs with
  | [] => (st, [])
  | m :: rest =>
    let r1 := onMessage st m sinkThrows
    let r2 := processMessages r1.1 rest sinkThrows
    (r2.1, r1.2 ++ r2.2)

end RunEventStream

/-- Mutable state of one `RunOutputStream` instance. -/
structure RunOutputStream where
  runId : String
  eventSource : List Url
  backoff : Nat
  reconnectTimeout : List Nat
  connected : Bool
  lastOffset : Int
deriving DecidableEq, Repr

namespace RunOutputStream

/-- Constructor: field initializers of the class. -/
def init (runId : String) : RunOutputStream :=
  { runId := runId
    eventSource := []
    backoff := INITIAL_BACKOFF_MS
    reconnectTimeout := []
    connected := false
    lastOffset := 0 }

/-- The URL built by `connect`: `{API_BASE}/runs/{runId}/output`, with
`offset=<o>` set iff `offset !== undefined && offset > 0`. -/
def outputUrl (runId : String) (offset : Option Int) : Url :=
  { base := API_BASE ++ "/runs/" ++ runId ++ "/output"
    query :=
      match offset with
      | some o => if o > 0 then some ("offset", toString o) else none
      | none => none }

/-- `connect(offset?)`: no-op if a transport already exists. -/
def connect (st : RunOutputStream) (offset : Option Int) : RunOutputStream :=
  if st.eventSource.isEmpty then
    { st with eventSource := [outputUrl st.runId offset] }
  else
    st

/-- The `onopen` handler. -/
def onOpen (st : RunOutputStream) : RunOutputStream :=
  { st with connected := true, backoff := INITIAL_BACKOFF_MS }

/-- End position of a chunk: `data.offset + data.content.length`. -/
def chunkEnd (c : OutputChunk) : Int :=
  c.offset + c.content.length

/-- The `onmessage` handler: track the max end offset, deliver the chunk;
the whole body runs inside one `try` whose `catch` invokes `onError`. -/
def onMessage (st : RunOutputStream) (msg : Except String OutputChunk)
    (sinkThrows : OutputChunk → Option String) : RunOutputStream × List Emit :=
  match msg with
  | .error e => (st, [.error e])
  | .ok data =>
    let st1 : RunOutputStream :=
      { st with
        lastOffset :=
          if chunkEnd data > st.lastOffset then chunkEnd data else st.lastOffset }
    match sinkThrows data with
    | some ex => (st1, [.output data, .error ex])
    | none => (st1, [.output data])

/-- `scheduleReconnect()`: no-op when a timer is already pending. -/
def scheduleReconnect (st : RunOutputStream) : RunOutputStream :=
  if st.reconnectTimeout.isEmpty then
    { st with reconnectTimeout := [st.backoff] }
  else
    st

/-- The `onerror` handler. -/
def onError (st : RunOutputStream) : RunOutputStream :=
  scheduleReconnect { st with connected := false, eventSource := [] }

/-- Body of the reconnect timer: clear the timer, invoke `onReconnect`,
`connect(lastOffset)`, then advance the backoff. -/
def timerFires (st : RunOutputStream) : RunOutputStream × List Emit :=
  let st1 : RunOutputStream := { st with reconnectTimeout := [] }
  let st2 := connect st1 (some st1.lastOffset)
  ({ st2 with backoff := min (st2.backoff * BACKOFF_MULTIPLIER) MAX_BACKOFF_MS },
   [.reconnect])

/-- `disconnect()`. -/
def disconnect (st : RunOutputStream) : RunOutputStream :=
  { st with reconnectTimeout := [], eventSource := [], connected := false }

/-- Deliver a sequence of inbound messages on one open transport, in order. -/
def processMessages (st : RunOutputStream) (msgs : List (Except String OutputChunk))
    (sinkThrows : OutputChunk → Option String) : RunOutputStream × List Emit :=
  match msgs with
  | [] => (st, [])
  | m :: rest =>
    let r1 := onMessage st m sinkThrows
    let r2 := processMessages r1.1 rest sinkThrows
    (r2.1, r1.2 ++ r2.2)

end RunOutputStream

/-- A consumer whose callbacks never throw. -/
def noThrowEv : RunEvent → Option String := fun _ => none

/-- A consumer whose callbacks never throw. -/
def noThrowOut : OutputChunk → Option String := fun _ => none

/-- Events successfully handed to the `onEvent` sink, in order. -/
def deliveredEvents (ems : List Emit) : List RunEvent :=
  ems.filterMap fun e =>
    match e with
    | .event ev => some ev
    | _ => none

/-- Identities of the events delivered, in order. -/
def deliveredIds (ems : List Emit) : List String :=
  (deliveredEvents ems).map RunEvent.id

/-- Identities carried by the well-formed (parse-success) messages of a
message sequence, in order. -/
def okIds (msgs : List (Except String RunEvent)) : List String :=
  msgs.filterMap fun m =>
    match m with
    | .ok e => some e.id
    | .error _ => none

/-- Reachable states of a `RunEventStream` instance under the environment
discipline of the event loop: transport signals (`onopen`, `onmessage`,
`onerror`) fire only while a transport exists, and the reconnect timer body
runs only while a timer is pending. -/
inductive EvReachable : RunEventStream → Prop where
  | init (runId : String) : EvReachable (RunEventStream.init runId)
  | connect {st} (c : Option Int) :
      EvReachable st → EvReachable (st.connect c)
  | onOpen {st} :
      EvReachable st → st.eventSource ≠ [] → EvReachable st.onOpen
  | onMessage {st} (msg : Except String RunEvent)
      (f : RunEvent → Option String) :
      EvReachable st → st.eventSource ≠ [] → EvReachable (st.onMessage msg f).1
  | onError {st} :
      EvReachable st → st.eventSource ≠ [] → EvReachable st.onError
  | timerFires {st} :
      EvReachable st → st.reconnectTimeout ≠ [] → EvReachable (st.timerFires).1
  | disconnect {st} :
      EvReachable st → EvReachable st.disconnect

/-- Reachable states of a `RunOutputStream` instance, same discipline. -/
inductive OutReachable : RunOutputStream → Prop where
  | init (runId : String) : OutReachable (RunOutputStream.init runId)
  | connect {st} (c : Option Int) :
      OutReachable st → OutReachable (st.connect c)
  | onOpen {st} :
      OutReachable st → st.eventSource ≠ [] → OutReachable st.onOpen
  | onMessage {st} (msg : Except String OutputChunk)
      (f : OutputChunk → Option String) :
      OutReachable st → st.eventSource ≠ [] → OutReachable (st.onMessage msg f).1
  | onError {st} :
      OutReachable st → st.eventSource ≠ [] → OutReachable st.onError
  | timerFires {st} :
      OutReachable st → st.reconnectTimeout ≠ [] → OutReachable (st.timerFires).1
  | disconnect {st} :
      OutReachable st → OutReachable st.disconnect

/-- `n` consecutive transport failures of a `RunEventStream` with no
intervening successful open: each round is the `onerror` handler followed by
the reconnect timer firing.  Returns the final state and the waits the
scheduled timers were given, in order. -/
def evConsecutiveFailures : Nat → RunEventStream → RunEventStream × List Nat
  | 0, st => (st, [])
  | n + 1, st =>
    let stE := st.onError
    let w := stE.reconnectTimeout.headD 0
    let stF := (stE.timerFires).1
    let r := evConsecutiveFailures n stF
    (r.1, w :: r.2)

/-- `n` consecutive transport failures of a `RunOutputStream`. -/
def outConsecutiveFailures : Nat → RunOutputStream → RunOutputStream × List Nat
  | 0, st => (st, [])
  | n + 1, st =>
    let stE := st.onError
    let w := stE.reconnectTimeout.headD 0
    let stF := (stE.timerFires).1
    let r := outConsecutiveFailures n stF
    (r.1, w :: r.2)

/-- First event of the reconnect-overlap scenario of spec section 8. -/
def ev1 : RunEvent :=
  { id := "e1", run_id := "run1", step_id := none, event_type := "t"
    timestamp := 100, payload := [] }

/-- Second event of the reconnect-overlap scenario. -/
def ev2 : RunEvent :=
  { id := "e2", run_id := "run1", step_id := none, event_type := "t"
    timestamp := 200, payload := [] }

/-- Third event of the reconnect-overlap scenario, sent after the server
redelivers `ev2`. -/
def ev3 : RunEvent :=
  { id := "e3", run_id := "run1", step_id := none, event_type := "t"
    timestamp := 300, payload := [] }

/-- Full reconnect-overlap scenario: connect, open, receive `e1` and `e2`,
transport error, timer fires (reconnects with the resume cursor), server
redelivers `e2` then sends `e3`.  Returns every sink call, in order. -/
def overlapScenario : List Emit :=
  let st0 := RunEventStream.init "run1"
  let st1 := st0.connect none
  let st2 := st1.onOpen
  let r3 := st2.processMessages [.ok ev1, .ok ev2] noThrowEv
  let st4 := r3.1.onError
  let r5 := st4.timerFires
  let st6 := r5.1.onOpen
  let r7 := st6.processMessages [.ok ev2, .ok ev3] noThrowEv
  r3.2 ++ r5.2 ++ r7.2

/-- First output chunk of the offset scenario of spec section 8. -/
def ch1 : OutputChunk := { step_id := "s1", offset := 0, content := "abc" }

/-- Second output chunk of the offset scenario: lastOffset becomes 6. -/
def ch2 : OutputChunk := { step_id := "s1", offset := 3, content := "def" }

/-! ## Helper lemmas -/

theorem ev_onMessage_frame (st : RunEventStream) (msg : Except String RunEvent)
    (f : RunEvent → Option String) :
    (st.onMessage msg f).1.eventSource = st.eventSource ∧
    (st.onMessage msg f).1.reconnectTimeout = st.reconnectTimeout ∧
    (st.onMessage msg f).1.backoff = st.backoff ∧
    (st.onMessage msg f).1.runId = st.runId ∧
    (st.onMessage msg f).1.connected = st.connected := by
  cases msg with
  | error e => simp [RunEventStream.onMessage]
  | ok data =>
    simp only [RunEventStream.onMessage]
    split
    · simp
    · cases hf : f data <;> simp [hf]

theorem out_onMessage_frame (st : RunOutputStream) (msg : Except String OutputChunk)
    (f : OutputChunk → Option String) :
    (st.onMessage msg f).1.eventSource = st.eventSource ∧
    (st.onMessage msg f).1.reconnectTimeout = st.reconnectTimeout ∧
    (st.onMessage msg f).1.backoff = st.backoff ∧
    (st.onMessage msg f).1.runId = st.runId ∧
    (st.onMessage msg f).1.connected = st.connected := by
  cases msg with
  | error e => simp [RunOutputStream.onMessage]
  | ok data => cases hf : f data <;> simp [RunOutputStream.onMessage, hf]

theorem ev_onMessage_dup (st : RunEventStream) (e : RunEvent)
    (f : RunEvent → Option String) (h : st.seenEventIds.contains e.id = true) :
    st.onMessage (.ok e) f = (st, []) := by
  simp at h
  simp [RunEventStream.onMessage, h]

theorem ev_onMessage_new_fields (st : RunEventStream) (e : RunEvent)
    (f : RunEvent → Option String) (h : st.seenEventIds.contains e.id = false) :
    (st.onMessage (.ok e) f).1.seenEventIds = e.id :: st.seenEventIds ∧
    (st.onMessage (.ok e) f).1.lastEventTimestamp
      = max st.lastEventTimestamp e.timestamp := by
  have hmax : (if e.timestamp > st.lastEventTimestamp then e.timestamp
      else st.lastEventTimestamp) = max st.lastEventTimestamp e.timestamp := by
    split <;> omega
  simp at h
  cases hf : f e <;> simp [RunEventStream.onMessage, h, hf, hmax]

theorem ev_onMessage_delivered (st : RunEventStream) (e : RunEvent)
    (f : RunEvent → Option String) (h : st.seenEventIds.contains e.id = false) :
    deliveredIds (st.onMessage (.ok e) f).2 = [e.id] := by
  simp at h
  cases hf : f e <;>
    simp [RunEventStream.onMessage, h, hf, deliveredIds, deliveredEvents]

theorem deliveredIds_append (l m : List Emit) :
    deliveredIds (l ++ m) = deliveredIds l ++ deliveredIds m := by
  simp [deliveredIds, deliveredEvents, List.filterMap_append]

theorem ev_processMessages_seen (st : RunEventStream)
    (msgs : List (Except String RunEvent)) (f : RunEvent → Option String)
    (i : String) :
    i ∈ (st.processMessages msgs f).1.seenEventIds ↔
      (i ∈ okIds msgs ∨ i ∈ st.seenEventIds) := by
  induction msgs generalizing st with
  | nil => simp [RunEventStream.processMessages, okIds]
  | cons m rest ih =>
    cases m with
    | error e =>
      have hm : st.onMessage (.error e) f = (st, [.error e]) := rfl
      simp only [RunEventStream.processMessages, hm]
      rw [ih]
      simp [okIds]
    | ok data =>
      by_cases hc : data.id ∈ st.seenEventIds
      · have hd : st.onMessage (.ok data) f = (st, []) :=
          ev_onMessage_dup st data f (by simpa using hc)
        simp only [RunEventStream.processMessages, hd]
        rw [ih]
        simp only [okIds, List.filterMap_cons]
        simp only [List.mem_cons]
        constructor
        · tauto
        · rintro ((rfl | h) | h)
          · exact Or.inr hc
          · exact Or.inl h
          · exact Or.inr h
      · have hn := ev_onMessage_new_fields st data f (by simpa using hc)
        simp only [RunEventStream.processMessages]
        rw [ih]
        rw [hn.1]
        simp only [okIds, List.filterMap_cons]
        simp only [List.mem_cons]
        tauto

theorem okIds_cons_ok (e : RunEvent) (rest : List (Except String RunEvent)) :
    okIds (.ok e :: rest) = e.id :: okIds rest := rfl

theorem okIds_cons_err (s : String) (rest : List (Except String RunEvent)) :
    okIds (.error s :: rest) = okIds rest := rfl

theorem ev_processMessages_delivered_mem (st : RunEventStream)
    (msgs : List (Except String RunEvent)) (f : RunEvent → Option String)
    (i : String) :
    i ∈ deliveredIds (st.processMessages msgs f).2 ↔
      (i ∈ okIds msgs ∧ i ∉ st.seenEventIds) := by
  induction msgs generalizing st with
  | nil => simp [RunEventStream.processMessages, okIds, deliveredIds, deliveredEvents]
  | cons m rest ih =>
    cases m with
    | error e =>
      have hm : st.onMessage (.error e) f = (st, [.error e]) := rfl
      have h1 : deliveredIds [Emit.error e] = [] := rfl
      simp only [RunEventStream.processMessages, hm, deliveredIds_append, h1,
        List.nil_append, okIds_cons_err]
      exact ih st
    | ok data =>
      by_cases hc : data.id ∈ st.seenEventIds
      · have hd : st.onMessage (.ok data) f = (st, []) :=
          ev_onMessage_dup st data f (by simpa using hc)
        simp only [RunEventStream.processMessages, hd, List.nil_append,
          okIds_cons_ok, List.mem_cons]
        rw [ih]
        constructor
        · rintro ⟨h1, h2⟩
          exact ⟨Or.inr h1, h2⟩
        · rintro ⟨h1 | h1, h2⟩
          · exact absurd (h1 ▸ hc) h2
          · exact ⟨h1, h2⟩
      · have hn := ev_onMessage_new_fields st data f (by simpa using hc)
        have hdl := ev_onMessage_delivered st data f (by simpa using hc)
        simp only [RunEventStream.processMessages, deliveredIds_append, hdl,
          okIds_cons_ok]
        rw [List.mem_append, ih, hn.1]
        simp only [List.mem_singleton, List.mem_cons]
        constructor
        · rintro ((rfl | h0) | ⟨h1, h2⟩)
          · exact ⟨Or.inl rfl, hc⟩
          · exact absurd h0 (List.not_mem_nil i)
          · exact ⟨Or.inr h1, fun hmem => h2 (Or.inr hmem)⟩
        · rintro ⟨h1, h2⟩
          by_cases hi : i = data.id
          · exact Or.inl (Or.inl hi)
          · rcases h1 with h1 | h1
            · exact absurd h1 hi
            · refine Or.inr ⟨h1, ?_⟩
              rintro (h3 | h3)
              · exact hi h3
              · exact h2 h3

theorem ev_processMessages_delivered_nodup (st : RunEventStream)
    (msgs : List (Except String RunEvent)) (f : RunEvent → Option String) :
    (deliveredIds (st.processMessages msgs f).2).Nodup := by
  induction msgs generalizing st with
  | nil => simp [RunEventStream.processMessages, deliveredIds, deliveredEvents]
  | cons m rest ih =>
    cases m with
    | error e =>
      have hm : st.onMessage (.error e) f = (st, [.error e]) := rfl
      have h1 : deliveredIds [Emit.error e] = [] := rfl
      simp only [RunEventStream.processMessages, hm, deliveredIds_append, h1,
        List.nil_append]
      exact ih st
    | ok data =>
      by_cases hc : data.id ∈ st.seenEventIds
      · have hd : st.onMessage (.ok data) f = (st, []) :=
          ev_onMessage_dup st data f (by simpa using hc)
        simp only [RunEventStream.processMessages, hd, List.nil_append]
        exact ih st
      · have hn := ev_onMessage_new_fields st data f (by simpa using hc)
        have hdl := ev_onMessage_delivered st data f (by simpa using hc)
        simp only [RunEventStream.processMessages, deliveredIds_append, hdl,
          List.singleton_append]
        refine List.nodup_cons.mpr ⟨?_, ih _⟩
        intro hmem
        have := (ev_processMessages_delivered_mem _ rest f data.id).mp hmem
        rw [hn.1] at this
        exact this.2 (List.mem_cons_self _ _)

theorem out_onMessage_ok_lastOffset (st : RunOutputStream) (c : OutputChunk)
    (f : OutputChunk → Option String) :
    (st.onMessage (.ok c) f).1.lastOffset
      = max st.lastOffset (RunOutputStream.chunkEnd c) := by
  have hmax : (if RunOutputStream.chunkEnd c > st.lastOffset
      then RunOutputStream.chunkEnd c else st.lastOffset)
      = max st.lastOffset (RunOutputStream.chunkEnd c) := by
    split <;> omega
  cases hf : f c <;> simp [RunOutputStream.onMessage, hf, hmax]

theorem out_processMessages_lastOffset (st : RunOutputStream)
    (msgs : List (Except String OutputChunk)) (f : OutputChunk → Option String) :
    (st.processMessages msgs f).1.lastOffset =
      msgs.foldl (fun a m =>
        match m with
        | .ok c => max a (RunOutputStream.chunkEnd c)
        | .error _ => a) st.lastOffset := by
  induction msgs generalizing st with
  | nil => rfl
  | cons m rest ih =>
    cases m with
    | error e =>
      have hm : st.onMessage (.error e) f = (st, [.error e]) := rfl
      simp only [RunOutputStream.processMessages, hm, List.foldl_cons]
      exact ih st
    | ok c =>
      simp only [RunOutputStream.processMessages, List.foldl_cons]
      rw [ih]
      rw [out_onMessage_ok_lastOffset st c f]

theorem foldl_max_init_le {α : Type} (g : α → Int) (a : Int) (l : List α) :
    a ≤ l.foldl (fun x c => max x (g c)) a := by
  induction l generalizing a with
  | nil => simp
  | cons c rest ih => exact le_trans (le_max_left _ _) (ih (max a (g c)))

theorem foldl_max_upper {α : Type} (g : α → Int) (a : Int) (l : List α) :
    ∀ c ∈ l, g c ≤ l.foldl (fun x c => max x (g c)) a := by
  induction l generalizing a with
  | nil => simp
  | cons c rest ih =>
    intro d hd
    rcases List.mem_cons.mp hd with rfl | hd
    · exact le_trans (le_max_right a (g d)) (foldl_max_init_le g _ rest)
    · exact ih (max a (g c)) d hd

theorem foldl_max_attained {α : Type} (g : α → Int) (a : Int) (l : List α) :
    l.foldl (fun x c => max x (g c)) a = a ∨
      ∃ c ∈ l, l.foldl (fun x c => max x (g c)) a = g c := by
  induction l generalizing a with
  | nil => exact Or.inl rfl
  | cons c rest ih =>
    rw [List.foldl_cons]
    rcases ih (max a (g c)) with h | ⟨d, hd, hEq⟩
    · rcases le_total (g c) a with hle | hle
      · left
        rw [h, max_eq_left hle]
      · right
        exact ⟨c, List.mem_cons_self c rest, by rw [h, max_eq_right hle]⟩
    · exact Or.inr ⟨d, List.mem_cons_of_mem c hd, hEq⟩

theorem min_cap_mul (b M y : Nat) (hy : 1 ≤ y) :
    min (min b M * y) M = min (b * y) M := by
  rcases Nat.le_total b M with h | h
  · rw [Nat.min_eq_left h]
  · rw [Nat.min_eq_right h]
    have h1 : M ≤ M * y := Nat.le_mul_of_pos_right M hy
    have h2 : M ≤ b * y := le_trans h (Nat.le_mul_of_pos_right b hy)
    rw [Nat.min_eq_right h1, Nat.min_eq_right h2]

theorem ev_onError_state (st : RunEventStream) (hT : st.reconnectTimeout = []) :
    st.onError =
      { st with
        connected := false
        eventSource := []
        reconnectTimeout := [st.backoff] } := by
  simp [RunEventStream.onError, RunEventStream.scheduleReconnect, hT]

theorem out_onError_state (st : RunOutputStream) (hT : st.reconnectTimeout = []) :
    st.onError =
      { st with
        connected := false
        eventSource := []
        reconnectTimeout := [st.backoff] } := by
  simp [RunOutputStream.onError, RunOutputStream.scheduleReconnect, hT]

theorem ev_timerFires_parts (st : RunEventStream) :
    (st.timerFires).1.reconnectTimeout = [] ∧
    (st.timerFires).1.backoff = min (st.backoff * 2) 30000 ∧
    (st.timerFires).1.lastEventTimestamp = st.lastEventTimestamp ∧
    (st.timerFires).1.seenEventIds = st.seenEventIds ∧
    (st.timerFires).2 = [Emit.reconnect] := by
  simp only [RunEventStream.timerFires, RunEventStream.connect,
    BACKOFF_MULTIPLIER, MAX_BACKOFF_MS]
  split <;> simp

theorem out_timerFires_parts (st : RunOutputStream) :
    (st.timerFires).1.reconnectTimeout = [] ∧
    (st.timerFires).1.backoff = min (st.backoff * 2) 30000 ∧
    (st.timerFires).1.lastOffset = st.lastOffset ∧
    (st.timerFires).2 = [Emit.reconnect] := by
  simp only [RunOutputStream.timerFires, RunOutputStream.connect,
    BACKOFF_MULTIPLIER, MAX_BACKOFF_MS]
  split <;> simp

theorem evConsecutiveFailures_waits (n : Nat) (st : RunEventStream)
    (hT : st.reconnectTimeout = []) (hB : st.backoff ≤ 30000) :
    (evConsecutiveFailures n st).2
      = (List.range n).map (fun k => min (st.backoff * 2 ^ k) 30000) := by
  induction n generalizing st with
  | zero => simp [evConsecutiveFailures]
  | succ n ih =>
    have hE := ev_onError_state st hT
    have hEb : st.onError.backoff = st.backoff := by rw [hE]
    have hEt : st.onError.reconnectTimeout = [st.backoff] := by rw [hE]
    have hF := ev_timerFires_parts st.onError
    have hFt : (st.onError.timerFires).1.reconnectTimeout = [] := hF.1
    have hFb : (st.onError.timerFires).1.backoff = min (st.backoff * 2) 30000 := by
      rw [hF.2.1, hEb]
    have ihF := ih (st.onError.timerFires).1 hFt
      (by rw [hFb]; exact min_le_right _ _)
    simp only [evConsecutiveFailures]
    rw [hEt, ihF, hFb]
    rw [List.range_succ_eq_map, List.map_cons, List.map_map]
    simp only [List.headD_cons]
    congr 1
    · simp [Nat.min_eq_left hB]
    · refine List.map_congr_left ?_
      intro k hk
      show min (min (st.backoff * 2) 30000 * 2 ^ k) 30000
          = min (st.backoff * 2 ^ (k + 1)) 30000
      rw [min_cap_mul _ _ _ (Nat.one_le_two_pow), pow_succ]
      ring_nf

theorem outConsecutiveFailures_waits (n : Nat) (st : RunOutputStream)
    (hT : st.reconnectTimeout = []) (hB : st.backoff ≤ 30000) :
    (outConsecutiveFailures n st).2
      = (List.range n).map (fun k => min (st.backoff * 2 ^ k) 30000) := by
  induction n generalizing st with
  | zero => simp [outConsecutiveFailures]
  | succ n ih =>
    have hE := out_onError_state st hT
    have hEb : st.onError.backoff = st.backoff := by rw [hE]
    have hEt : st.onError.reconnectTimeout = [st.backoff] := by rw [hE]
    have hF := out_timerFires_parts st.onError
    have hFt : (st.onError.timerFires).1.reconnectTimeout = [] := hF.1
    have hFb : (st.onError.timerFires).1.backoff = min (st.backoff * 2) 30000 := by
      rw [hF.2.1, hEb]
    have ihF := ih (st.onError.timerFires).1 hFt
      (by rw [hFb]; exact min_le_right _ _)
    simp only [outConsecutiveFailures]
    rw [hEt, ihF, hFb]
    rw [List.range_succ_eq_map, List.map_cons, List.map_map]
    simp only [List.headD_cons]
    congr 1
    · simp [Nat.min_eq_left hB]
    · refine List.map_congr_left ?_
      intro k hk
      show min (min (st.backoff * 2) 30000 * 2 ^ k) 30000
          = min (st.backoff * 2 ^ (k + 1)) 30000
      rw [min_cap_mul _ _ _ (Nat.one_le_two_pow), pow_succ]
      ring_nf

/-! ## Claim theorems -/

/-- C4: for both stream types, the connect(cursor) URL includes the resume
query parameter (after for RunEventStream, offset for RunOutputStream) iff
the cursor argument is defined and strictly greater than zero; connect with
0 or undefined omits the parameter, and connect(1234) on a RunEventStream
produces a URL containing after=1234. -/
theorem C4_resume_query_param :
    (∀ (runId : String) (t : Int),
      (RunEventStream.eventsUrl runId (some t)).query.isSome = true ↔ 0 < t) ∧
    (∀ runId : String, (RunEventStream.eventsUrl runId none).query = none) ∧
    (∀ runId : String, (RunEventStream.eventsUrl runId (some 0)).query = none) ∧
    (∀ (runId : String) (t : Int), 0 < t →
      (RunEventStream.eventsUrl runId (some t)).query = some ("after", toString t)) ∧
    (∀ (runId : String) (o : Int),
      (RunOutputStream.outputUrl runId (some o)).query.isSome = true ↔ 0 < o) ∧
    (∀ runId : String, (RunOutputStream.outputUrl runId none).query = none) ∧
    (∀ runId : String, (RunOutputStream.outputUrl runId (some 0)).query = none) ∧
    (∀ (runId : String) (o : Int), 0 < o →
      (RunOutputStream.outputUrl runId (some o)).query = some ("offset", toString o)) ∧
    (∀ (st : RunEventStream) (c : Option Int), st.eventSource = [] →
      (st.connect c).eventSource = [RunEventStream.eventsUrl st.runId c]) ∧
    (∀ (st : RunOutputStream) (c : Option Int), st.eventSource = [] →
      (st.connect c).eventSource = [RunOutputStream.outputUrl st.runId c]) ∧
    ("after=1234").data <:+: ((RunEventStream.eventsUrl "run1" (some 1234)).render).data := by
  refine ⟨?_, ?_, ?_, ?_, ?_, ?_, ?_, ?_, ?_, ?_, ?_⟩
  · intro runId t
    by_cases h : 0 < t <;> simp [RunEventStream.eventsUrl, h]
  · intro runId
    rfl
  · intro runId
    rfl
  · intro runId t h
    simp [RunEventStream.eventsUrl, h]
  · intro runId o
    by_cases h : 0 < o <;> simp [RunOutputStream.outputUrl, h]
  · intro runId
    rfl
  · intro runId
    rfl
  · intro runId o h
    simp [RunOutputStream.outputUrl, h]
  · intro st c h
    simp [RunEventStream.connect, h]
  · intro st c h
    simp [RunOutputStream.connect, h]
  · decide

/-- C4 witness: concrete instances at runId run1 and cursor 1234. -/
theorem C4_witness :
    (RunEventStream.eventsUrl "run1" (some 1234)).query
        = some ("after", toString (1234 : Int)) ∧
    (RunOutputStream.outputUrl "run1" (some 1234)).query
        = some ("offset", toString (1234 : Int)) ∧
    ((RunEventStream.init "run1").connect (some 1234)).eventSource
        = [RunEventStream.eventsUrl "run1" (some 1234)] ∧
    ((RunOutputStream.init "run1").connect (some 1234)).eventSource
        = [RunOutputStream.outputUrl "run1" (some 1234)] := by
  obtain ⟨h1, h2, h3, h4, h5, h6, h7, h8, h9, h10, h11⟩ := C4_resume_query_param
  exact ⟨h4 "run1" 1234 (by norm_num), h8 "run1" 1234 (by norm_num),
    h9 (RunEventStream.init "run1") (some 1234) rfl,
    h10 (RunOutputStream.init "run1") (some 1234) rfl⟩

/-- C6: an inbound message whose body fails to parse makes the stream invoke
the onError sink with the parse error, leaves the state (in particular the
open transport) untouched, and subsequent messages on the same connection
are processed unchanged. -/
theorem C6_parse_error_continues :
    (∀ (st : RunEventStream) (e : String) (f : RunEvent → Option String),
      st.onMessage (.error e) f = (st, [Emit.error e])) ∧
    (∀ (st : RunEventStream) (e : String) (rest : List (Except String RunEvent))
        (f : RunEvent → Option String),
      st.processMessages (.error e :: rest) f
        = ((st.processMessages rest f).1,
           Emit.error e :: (st.processMessages rest f).2)) ∧
    (∀ (st : RunOutputStream) (e : String) (f : OutputChunk → Option String),
      st.onMessage (.error e) f = (st, [Emit.error e])) ∧
    (∀ (st : RunOutputStream) (e : String) (rest : List (Except String OutputChunk))
        (f : OutputChunk → Option String),
      st.processMessages (.error e :: rest) f
        = ((st.processMessages rest f).1,
           Emit.error e :: (st.processMessages rest f).2)) := by
  refine ⟨fun st e f => rfl, fun st e rest f => rfl,
    fun st e f => rfl, fun st e rest f => rfl⟩

/-- C8: disconnect is total in every state, leaves no pending timer, no open
transport and a cleared connected flag, and is idempotent (safe to call
twice or before any connect). -/
theorem C8_disconnect_safe :
    (∀ st : RunEventStream,
      st.disconnect.reconnectTimeout = [] ∧
      st.disconnect.eventSource = [] ∧
      st.disconnect.connected = false ∧
      st.disconnect.disconnect = st.disconnect) ∧
    (∀ st : RunOutputStream,
      st.disconnect.reconnectTimeout = [] ∧
      st.disconnect.eventSource = [] ∧
      st.disconnect.connected = false ∧
      st.disconnect.disconnect = st.disconnect) := by
  exact ⟨fun st => ⟨rfl, rfl, rfl, rfl⟩, fun st => ⟨rfl, rfl, rfl, rfl⟩⟩

/-- C5 counterexample: with a consumer onEvent callback that throws, the
onmessage handler returns normally and invokes the onError sink with the
thrown exception — the callback runs inside the same try/catch as JSON
parsing (setup.ts lines 81-99), so the stream layer does catch and forward
the exception, contrary to the claim. -/
theorem C5_counterexample :
    ((RunEventStream.init "run1").onMessage (.ok ev1)
        (fun _ => some "sink exception")).2
      = [Emit.event ev1, Emit.error "sink exception"] := by
  decide

/-- C5 amended: if the consumer onEvent (or onOutput) callback throws during
delivery, the stream layer catches the exception and forwards it to the
onError sink; it does not propagate out of the handler. -/
theorem C5_sink_error_forwarded :
    (∀ (st : RunEventStream) (e : RunEvent) (ex : String)
        (f : RunEvent → Option String),
      f e = some ex → st.seenEventIds.contains e.id = false →
        (st.onMessage (.ok e) f).2 = [Emit.event e, Emit.error ex]) ∧
    (∀ (st : RunOutputStream) (c : OutputChunk) (ex : String)
        (g : OutputChunk → Option String),
      g c = some ex →
        (st.onMessage (.ok c) g).2 = [Emit.output c, Emit.error ex]) := by
  constructor
  · intro st e ex f hf h
    simp at h
    simp [RunEventStream.onMessage, h, hf]
  · intro st c ex g hg
    simp [RunOutputStream.onMessage, hg]

/-- C5 witness: amended claim at concrete inputs. -/
theorem C5_witness :
    ((RunEventStream.init "run1").onMessage (.ok ev2) (fun _ => some "boom")).2
        = [Emit.event ev2, Emit.error "boom"] ∧
    ((RunOutputStream.init "run1").onMessage (.ok ch1) (fun _ => some "boom")).2
        = [Emit.output ch1, Emit.error "boom"] := by
  exact ⟨C5_sink_error_forwarded.1 _ ev2 "boom" _ rfl (by decide),
    C5_sink_error_forwarded.2 _ ch1 "boom" _ rfl⟩

/-- C10: disconnect modifies only the pending timer, the transport handle
and the connected flag; the dedup set, the resume cursors and the backoff
value survive, so a stream reused via connect after disconnect still
suppresses previously seen event ids and keeps its cursors. -/
theorem C10_disconnect_frame :
    (∀ st : RunEventStream,
      st.disconnect.seenEventIds = st.seenEventIds ∧
      st.disconnect.lastEventTimestamp = st.lastEventTimestamp ∧
      st.disconnect.backoff = st.backoff ∧
      st.disconnect.runId = st.runId) ∧
    (∀ st : RunOutputStream,
      st.disconnect.lastOffset = st.lastOffset ∧
      st.disconnect.backoff = st.backoff ∧
      st.disconnect.runId = st.runId) ∧
    (∀ (st : RunEventStream) (c : Option Int) (e : RunEvent)
        (f : RunEvent → Option String),
      st.seenEventIds.contains e.id = true →
        (st.disconnect.connect c).onMessage (.ok e) f
          = (st.disconnect.connect c, [])) ∧
    (∀ (st : RunEventStream) (c : Option Int),
      (st.disconnect.connect c).lastEventTimestamp = st.lastEventTimestamp) ∧
    (∀ (st : RunOutputStream) (c : Option Int),
      (st.disconnect.connect c).lastOffset = st.lastOffset) := by
  refine ⟨fun st => ⟨rfl, rfl, rfl, rfl⟩, fun st => ⟨rfl, rfl, rfl⟩, ?_, ?_, ?_⟩
  · intro st c e f h
    apply ev_onMessage_dup
    have hseen : (st.disconnect.connect c).seenEventIds = st.seenEventIds := by
      simp [RunEventStream.disconnect, RunEventStream.connect]
    rw [hseen]
    exact h
  · intro st c
    simp [RunEventStream.disconnect, RunEventStream.connect]
  · intro st c
    simp [RunOutputStream.disconnect, RunOutputStream.connect]

/-- C10 witness: a stream that saw ev1, then disconnected and reconnected,
still discards a redelivery of ev1 and keeps its cursor. -/
theorem C10_witness :
    ((((RunEventStream.init "run1").onMessage (.ok ev1)
          noThrowEv).1.disconnect.connect (some 100)).onMessage (.ok ev1) noThrowEv
      = ((((RunEventStream.init "run1").onMessage (.ok ev1)
          noThrowEv).1.disconnect.connect (some 100)), [])) ∧
    (((RunEventStream.init "run1").onMessage (.ok ev1)
          noThrowEv).1.disconnect.connect (some 100)).lastEventTimestamp
      = (((RunEventStream.init "run1").onMessage (.ok ev1)
          noThrowEv).1).lastEventTimestamp := by
  obtain ⟨h1, h2, h3, h4, h5⟩ := C10_disconnect_frame
  exact ⟨h3 _ (some 100) ev1 noThrowEv (by decide), h4 _ (some 100)⟩

/-- C1: per event identity, exactly-once delivery to the onEvent sink: a
well-formed event whose id is in the dedup set is silently discarded (no
error emission, state untouched); a newly-seen event updates
lastEventTimestamp to the max of the old value (0 at construction) and the
event timestamp; over any message sequence the delivered ids are pairwise
distinct and are exactly the well-formed ids not already seen; and in the
reconnect-overlap scenario the consumer observes [e1, e2, e3]. -/
theorem C1_dedup_exactly_once :
    (∀ (st : RunEventStream) (e : RunEvent) (f : RunEvent → Option String),
      st.seenEventIds.contains e.id = true → st.onMessage (.ok e) f = (st, [])) ∧
    (∀ (st : RunEventStream) (e : RunEvent) (f : RunEvent → Option String),
      st.seenEventIds.contains e.id = false →
        (st.onMessage (.ok e) f).1.lastEventTimestamp
          = max st.lastEventTimestamp e.timestamp) ∧
    (∀ runId : String, (RunEventStream.init runId).lastEventTimestamp = 0) ∧
    (∀ (st : RunEventStream) (msgs : List (Except String RunEvent))
        (f : RunEvent → Option String),
      (deliveredIds (st.processMessages msgs f).2).Nodup ∧
      ∀ i : String, i ∈ deliveredIds (st.processMessages msgs f).2 ↔
        (i ∈ okIds msgs ∧ i ∉ st.seenEventIds)) ∧
    deliveredEvents overlapScenario = [ev1, ev2, ev3] := by
  refine ⟨ev_onMessage_dup, ?_, fun _ => rfl, ?_, by decide⟩
  · intro st e f h
    exact (ev_onMessage_new_fields st e f h).2
  · intro st msgs f
    exact ⟨ev_processMessages_delivered_nodup st msgs f,
      fun i => ev_processMessages_delivered_mem st msgs f i⟩

/-- C1 witness: a redelivered ev1 is discarded, and a fresh ev2 moves the
timestamp cursor to the max. -/
theorem C1_witness :
    (((RunEventStream.init "run1").onMessage (.ok ev1) noThrowEv).1.onMessage
        (.ok ev1) noThrowEv
      = (((RunEventStream.init "run1").onMessage (.ok ev1) noThrowEv).1, [])) ∧
    ((RunEventStream.init "run1").onMessage (.ok ev2) noThrowEv).1.lastEventTimestamp
      = max (RunEventStream.init "run1").lastEventTimestamp ev2.timestamp := by
  obtain ⟨h1, h2, h3, h4, h5⟩ := C1_dedup_exactly_once
  exact ⟨h1 _ ev1 noThrowEv (by decide), h2 _ ev2 noThrowEv (by decide)⟩

theorem out_fold_init_le (a : Int) (msgs : List (Except String OutputChunk)) :
    a ≤ msgs.foldl (fun a m =>
      match m with
      | .ok c => max a (RunOutputStream.chunkEnd c)
      | .error _ => a) a := by
  induction msgs generalizing a with
  | nil => exact le_refl a
  | cons m rest ih =>
    cases m with
    | error e => exact ih a
    | ok c => exact le_trans (le_max_left _ _) (ih _)

theorem chunkEnd_nonneg (c : OutputChunk) (h : 0 ≤ c.offset) :
    0 ≤ RunOutputStream.chunkEnd c := by
  have hl : (0 : Int) ≤ c.content.length := Int.natCast_nonneg _
  simp only [RunOutputStream.chunkEnd]
  omega

theorem out_fold_map_ok (a : Int) (chunks : List OutputChunk) :
    (chunks.map (Except.ok (ε := String))).foldl (fun a m =>
      match m with
      | .ok c => max a (RunOutputStream.chunkEnd c)
      | .error _ => a) a
    = chunks.foldl (fun x c => max x (RunOutputStream.chunkEnd c)) a := by
  rw [List.foldl_map]

/-- C2: lastOffset starts at 0, never decreases across any message or
reconnect transition, and after processing a sequence of parsed chunks with
nonnegative offsets it equals the maximum of offset + length(content) over
the chunks seen (0 for the empty sequence); in the spec scenario the two
chunks abc at 0 and def at 3 leave lastOffset 6 and the reconnect URL
resumes at offset=6. -/
theorem C2_offset_monotone_max :
    (∀ runId : String, (RunOutputStream.init runId).lastOffset = 0) ∧
    (∀ (st : RunOutputStream) (msg : Except String OutputChunk)
        (f : OutputChunk → Option String),
      st.lastOffset ≤ (st.onMessage msg f).1.lastOffset) ∧
    (∀ (st : RunOutputStream) (msgs : List (Except String OutputChunk))
        (f : OutputChunk → Option String),
      st.lastOffset ≤ (st.processMessages msgs f).1.lastOffset) ∧
    (∀ st : RunOutputStream,
      st.onError.lastOffset = st.lastOffset ∧
      (st.timerFires).1.lastOffset = st.lastOffset ∧
      st.onOpen.lastOffset = st.lastOffset ∧
      st.disconnect.lastOffset = st.lastOffset ∧
      ∀ c : Option Int, (st.connect c).lastOffset = st.lastOffset) ∧
    (∀ (runId : String) (chunks : List OutputChunk)
        (f : OutputChunk → Option String),
      (∀ c ∈ chunks, 0 ≤ c.offset) →
      (∀ c ∈ chunks, RunOutputStream.chunkEnd c ≤
        ((RunOutputStream.init runId).processMessages (chunks.map .ok) f).1.lastOffset) ∧
      (chunks = [] →
        ((RunOutputStream.init runId).processMessages (chunks.map .ok) f).1.lastOffset = 0) ∧
      (chunks ≠ [] → ∃ c ∈ chunks,
        ((RunOutputStream.init runId).processMessages (chunks.map .ok) f).1.lastOffset
          = RunOutputStream.chunkEnd c)) ∧
    ((RunOutputStream.init "run1").processMessages
        [.ok ch1, .ok ch2] noThrowOut).1.lastOffset = 6 ∧
    ((((RunOutputStream.init "run1").processMessages
        [.ok ch1, .ok ch2] noThrowOut).1.onError.timerFires).1.eventSource
      = [RunOutputStream.outputUrl "run1" (some 6)]) := by
  refine ⟨fun _ => rfl, ?_, ?_, ?_, ?_, by decide, by decide⟩
  · intro st msg f
    cases msg with
    | error e => exact le_refl _
    | ok c =>
      rw [out_onMessage_ok_lastOffset]
      exact le_max_left _ _
  · intro st msgs f
    rw [out_processMessages_lastOffset]
    exact out_fold_init_le st.lastOffset msgs
  · intro st
    refine ⟨?_, (out_timerFires_parts st).2.2.1, rfl, rfl, ?_⟩
    · simp only [RunOutputStream.onError, RunOutputStream.scheduleReconnect]
      split <;> rfl
    · intro c
      simp only [RunOutputStream.connect]
      split <;> rfl
  · intro runId chunks f h
    have hL : ((RunOutputStream.init runId).processMessages (chunks.map .ok) f).1.lastOffset
        = chunks.foldl (fun x c => max x (RunOutputStream.chunkEnd c)) 0 := by
      rw [out_processMessages_lastOffset]
      rw [show (RunOutputStream.init runId).lastOffset = 0 from rfl, out_fold_map_ok]
    refine ⟨?_, ?_, ?_⟩
    · intro c hc
      rw [hL]
      exact foldl_max_upper _ 0 chunks c hc
    · intro he
      subst he
      rw [hL]
      rfl
    · intro hne
      rw [hL]
      rcases foldl_max_attained RunOutputStream.chunkEnd 0 chunks with hz | ⟨c, hc, hEq⟩
      · obtain ⟨c0, rest, rfl⟩ := List.exists_cons_of_ne_nil hne
        refine ⟨c0, List.mem_cons_self _ _, ?_⟩
        have hub := foldl_max_upper RunOutputStream.chunkEnd 0 (c0 :: rest)
          c0 (List.mem_cons_self _ _)
        have hnn := chunkEnd_nonneg c0 (h c0 (List.mem_cons_self _ _))
        omega
      · exact ⟨c, hc, hEq⟩

/-- C2 witness: the offset-scenario chunks satisfy the nonnegative-offset
hypothesis and the resulting lastOffset is attained and bounds each chunk. -/
theorem C2_witness :
    RunOutputStream.chunkEnd ch2 ≤
      ((RunOutputStream.init "run1").processMessages
        [.ok ch1, .ok ch2] noThrowOut).1.lastOffset ∧
    ∃ c ∈ [ch1, ch2],
      ((RunOutputStream.init "run1").processMessages
        [.ok ch1, .ok ch2] noThrowOut).1.lastOffset = RunOutputStream.chunkEnd c := by
  obtain ⟨h1, h2, h3, h4, h5, h6, h7⟩ := C2_offset_monotone_max
  have hmain := h5 "run1" [ch1, ch2] noThrowOut (by decide)
  exact ⟨hmain.1 ch2 (by decide), hmain.2.2 (by decide)⟩

/-- C3: for both stream types, starting from a freshly opened connection,
during n consecutive transport failures with no intervening successful open
the wait scheduled before the (k+1)-st reconnect attempt (index k, so the
Nth attempt has k = N-1) is min(1000 * 2^k, 30000) ms; a successful open
resets the backoff to 1000 so the next scheduled wait is 1000 ms; and a
failed attempt (the onerror handler) never changes the backoff value. -/
theorem C3_backoff_growth_reset :
    (∀ (runId : String) (n k : Nat), k < n →
      (evConsecutiveFailures n
        (((RunEventStream.init runId).connect none).onOpen)).2[k]?
        = some (min (1000 * 2 ^ k) 30000)) ∧
    (∀ st : RunEventStream, st.onOpen.backoff = 1000) ∧
    (∀ st : RunEventStream, st.onError.backoff = st.backoff) ∧
    (∀ st : RunEventStream, st.reconnectTimeout = [] →
      st.onOpen.onError.reconnectTimeout = [1000]) ∧
    (∀ (runId : String) (n k : Nat), k < n →
      (outConsecutiveFailures n
        (((RunOutputStream.init runId).connect none).onOpen)).2[k]?
        = some (min (1000 * 2 ^ k) 30000)) ∧
    (∀ st : RunOutputStream, st.onOpen.backoff = 1000) ∧
    (∀ st : RunOutputStream, st.onError.backoff = st.backoff) ∧
    (∀ st : RunOutputStream, st.reconnectTimeout = [] →
      st.onOpen.onError.reconnectTimeout = [1000]) := by
  refine ⟨?_, fun _ => rfl, ?_, ?_, ?_, fun _ => rfl, ?_, ?_⟩
  · intro runId n k hk
    have h0 : (((RunEventStream.init runId).connect none).onOpen).reconnectTimeout
        = [] := rfl
    have hb : (((RunEventStream.init runId).connect none).onOpen).backoff = 1000 := rfl
    rw [evConsecutiveFailures_waits n _ h0 (by rw [hb]; norm_num)]
    rw [hb]
    simp [List.getElem?_map, List.getElem?_range hk]
  · intro st
    simp only [RunEventStream.onError, RunEventStream.scheduleReconnect]
    split <;> rfl
  · intro st hT
    have hT2 : st.onOpen.reconnectTimeout = [] := hT
    rw [ev_onError_state st.onOpen hT2]
    rfl
  · intro runId n k hk
    have h0 : (((RunOutputStream.init runId).connect none).onOpen).reconnectTimeout
        = [] := rfl
    have hb : (((RunOutputStream.init runId).connect none).onOpen).backoff = 1000 := rfl
    rw [outConsecutiveFailures_waits n _ h0 (by rw [hb]; norm_num)]
    rw [hb]
    simp [List.getElem?_map, List.getElem?_range hk]
  · intro st
    simp only [RunOutputStream.onError, RunOutputStream.scheduleReconnect]
    split <;> rfl
  · intro st hT
    have hT2 : st.onOpen.reconnectTimeout = [] := hT
    rw [out_onError_state st.onOpen hT2]
    rfl

/-- C3 witness: sixth consecutive failure hits the 30000 ms cap on the event
stream; third failure waits 4000 ms on the output stream. -/
theorem C3_witness :
    (evConsecutiveFailures 6
        (((RunEventStream.init "run1").connect none).onOpen)).2[5]?
      = some (min (1000 * 2 ^ 5) 30000) ∧
    (outConsecutiveFailures 3
        (((RunOutputStream.init "run1").connect none).onOpen)).2[2]?
      = some (min (1000 * 2 ^ 2) 30000) ∧
    ((RunEventStream.init "run1").connect none).onOpen.onError.reconnectTimeout
      = [1000] := by
  obtain ⟨h1, h2, h3, h4, h5, h6, h7, h8⟩ := C3_backoff_growth_reset
  exact ⟨h1 "run1" 6 5 (by norm_num), h5 "run1" 3 2 (by norm_num),
    h4 ((RunEventStream.init "run1").connect none) rfl⟩

theorem ev_reachable_le_one (st : RunEventStream) (h : EvReachable st) :
    st.eventSource.length ≤ 1 ∧ st.reconnectTimeout.length ≤ 1 := by
  induction h with
  | init runId => exact ⟨by simp [RunEventStream.init], by simp [RunEventStream.init]⟩
  | connect c h ih =>
    simp only [RunEventStream.connect]
    split
    · exact ⟨by simp, ih.2⟩
    · exact ih
  | onOpen h hne ih => exact ih
  | onMessage msg f h hne ih =>
    obtain ⟨hES, hTi, _, _, _⟩ := ev_onMessage_frame _ msg f
    rw [hES, hTi]
    exact ih
  | onError h hne ih =>
    simp only [RunEventStream.onError, RunEventStream.scheduleReconnect]
    split
    · exact ⟨by simp, by simp⟩
    · exact ⟨by simp, ih.2⟩
  | timerFires h hne ih =>
    constructor
    · simp only [RunEventStream.timerFires, RunEventStream.connect]
      split
      · simp
      · simpa using ih.1
    · rw [(ev_timerFires_parts _).1]
      simp
  | disconnect h ih => exact ⟨by simp [RunEventStream.disconnect], by simp [RunEventStream.disconnect]⟩

theorem out_reachable_le_one (st : RunOutputStream) (h : OutReachable st) :
    st.eventSource.length ≤ 1 ∧ st.reconnectTimeout.length ≤ 1 := by
  induction h with
  | init runId => exact ⟨by simp [RunOutputStream.init], by simp [RunOutputStream.init]⟩
  | connect c h ih =>
    simp only [RunOutputStream.connect]
    split
    · exact ⟨by simp, ih.2⟩
    · exact ih
  | onOpen h hne ih => exact ih
  | onMessage msg f h hne ih =>
    obtain ⟨hES, hTi, _, _, _⟩ := out_onMessage_frame _ msg f
    rw [hES, hTi]
    exact ih
  | onError h hne ih =>
    simp only [RunOutputStream.onError, RunOutputStream.scheduleReconnect]
    split
    · exact ⟨by simp, by simp⟩
    · exact ⟨by simp, ih.2⟩
  | timerFires h hne ih =>
    constructor
    · simp only [RunOutputStream.timerFires, RunOutputStream.connect]
      split
      · simp
      · simpa using ih.1
    · rw [(out_timerFires_parts _).1]
      simp
  | disconnect h ih => exact ⟨by simp [RunOutputStream.disconnect], by simp [RunOutputStream.disconnect]⟩

/-- C7: in every reachable state at most one transport is open and at most
one reconnect timer is pending; a transport error while a timer is pending
leaves the pending timer untouched (no second timer); and connect while a
transport exists is a complete no-op. -/
theorem C7_single_transport_single_timer :
    (∀ st : RunEventStream, EvReachable st →
      st.eventSource.length ≤ 1 ∧ st.reconnectTimeout.length ≤ 1) ∧
    (∀ st : RunEventStream, st.reconnectTimeout ≠ [] →
      st.onError.reconnectTimeout = st.reconnectTimeout) ∧
    (∀ (st : RunEventStream) (c : Option Int),
      st.eventSource ≠ [] → st.connect c = st) ∧
    (∀ st : RunOutputStream, OutReachable st →
      st.eventSource.length ≤ 1 ∧ st.reconnectTimeout.length ≤ 1) ∧
    (∀ st : RunOutputStream, st.reconnectTimeout ≠ [] →
      st.onError.reconnectTimeout = st.reconnectTimeout) ∧
    (∀ (st : RunOutputStream) (c : Option Int),
      st.eventSource ≠ [] → st.connect c = st) := by
  refine ⟨ev_reachable_le_one, ?_, ?_, out_reachable_le_one, ?_, ?_⟩
  · intro st h
    have hne : st.reconnectTimeout.isEmpty = false := by
      simpa [List.isEmpty_iff] using h
    simp [RunEventStream.onError, RunEventStream.scheduleReconnect, hne]
  · intro st c h
    have hne : st.eventSource.isEmpty = false := by
      simpa [List.isEmpty_iff] using h
    simp [RunEventStream.connect, hne]
  · intro st h
    have hne : st.reconnectTimeout.isEmpty = false := by
      simpa [List.isEmpty_iff] using h
    simp [RunOutputStream.onError, RunOutputStream.scheduleReconnect, hne]
  · intro st c h
    have hne : st.eventSource.isEmpty = false := by
      simpa [List.isEmpty_iff] using h
    simp [RunOutputStream.connect, hne]

/-- C7 witness: the single-instance bounds at the initial state, no second
timer after an error with a timer already pending, and no-op connect on an
already-connected stream, at concrete states. -/
theorem C7_witness :
    ((RunEventStream.init "run1").eventSource.length ≤ 1 ∧
      (RunEventStream.init "run1").reconnectTimeout.length ≤ 1) ∧
    (((RunEventStream.init "run1").connect none).onError.onError.reconnectTimeout
      = ((RunEventStream.init "run1").connect none).onError.reconnectTimeout) ∧
    (((RunEventStream.init "run1").connect none).connect (some 5)
      = (RunEventStream.init "run1").connect none) ∧
    ((RunOutputStream.init "run1").eventSource.length ≤ 1 ∧
      (RunOutputStream.init "run1").reconnectTimeout.length ≤ 1) ∧
    (((RunOutputStream.init "run1").connect none).onError.onError.reconnectTimeout
      = ((RunOutputStream.init "run1").connect none).onError.reconnectTimeout) ∧
    (((RunOutputStream.init "run1").connect none).connect (some 5)
      = (RunOutputStream.init "run1").connect none) := by
  obtain ⟨h1, h2, h3, h4, h5, h6⟩ := C7_single_transport_single_timer
  exact ⟨h1 _ (EvReachable.init "run1"),
    h2 _ (by decide),
    h3 _ (some 5) (by decide),
    h4 _ (OutReachable.init "run1"),
    h5 _ (by decide),
    h6 _ (some 5) (by decide)⟩

/-- C9: the onerror handler clears the connected flag, closes and discards
the transport, leaves the backoff untouched, and (when no timer is pending)
schedules a reconnect timer whose wait is the current backoff; the timer
body emits exactly the onReconnect notification, consumes the timer,
reconnects with the current resume cursor (lastEventTimestamp or
lastOffset) when no transport is open, and only then doubles the backoff up
to the 30000 ms cap. -/
theorem C9_error_reconnect_protocol :
    (∀ st : RunEventStream,
      st.onError.connected = false ∧
      st.onError.eventSource = [] ∧
      st.onError.backoff = st.backoff) ∧
    (∀ st : RunEventStream, st.reconnectTimeout = [] →
      st.onError.reconnectTimeout = [st.backoff]) ∧
    (∀ st : RunEventStream,
      (st.timerFires).2 = [Emit.reconnect] ∧
      (st.timerFires).1.reconnectTimeout = [] ∧
      (st.timerFires).1.backoff = min (st.backoff * 2) 30000) ∧
    (∀ st : RunEventStream, st.eventSource = [] →
      (st.timerFires).1.eventSource
        = [RunEventStream.eventsUrl st.runId (some st.lastEventTimestamp)]) ∧
    (∀ st : RunOutputStream,
      st.onError.connected = false ∧
      st.onError.eventSource = [] ∧
      st.onError.backoff = st.backoff) ∧
    (∀ st : RunOutputStream, st.reconnectTimeout = [] →
      st.onError.reconnectTimeout = [st.backoff]) ∧
    (∀ st : RunOutputStream,
      (st.timerFires).2 = [Emit.reconnect] ∧
      (st.timerFires).1.reconnectTimeout = [] ∧
      (st.timerFires).1.backoff = min (st.backoff * 2) 30000) ∧
    (∀ st : RunOutputStream, st.eventSource = [] →
      (st.timerFires).1.eventSource
        = [RunOutputStream.outputUrl st.runId (some st.lastOffset)]) := by
  refine ⟨?_, ?_, ?_, ?_, ?_, ?_, ?_, ?_⟩
  · intro st
    refine ⟨?_, ?_, ?_⟩ <;>
      (simp only [RunEventStream.onError, RunEventStream.scheduleReconnect]
       split <;> rfl)
  · intro st hT
    rw [ev_onError_state st hT]
  · intro st
    have h := ev_timerFires_parts st
    exact ⟨h.2.2.2.2, h.1, h.2.1⟩
  · intro st h
    simp [RunEventStream.timerFires, RunEventStream.connect, h]
  · intro st
    refine ⟨?_, ?_, ?_⟩ <;>
      (simp only [RunOutputStream.onError, RunOutputStream.scheduleReconnect]
       split <;> rfl)
  · intro st hT
    rw [out_onError_state st hT]
  · intro st
    have h := out_timerFires_parts st
    exact ⟨h.2.2.2, h.1, h.2.1⟩
  · intro st h
    simp [RunOutputStream.timerFires, RunOutputStream.connect, h]

/-- C9 witness: error and timer behavior at concrete states with empty
timer list and no transport. -/
theorem C9_witness :
    ((RunEventStream.init "run1").onError.reconnectTimeout
      = [(RunEventStream.init "run1").backoff]) ∧
    (((RunEventStream.init "run1").timerFires).1.eventSource
      = [RunEventStream.eventsUrl "run1" (some 0)]) ∧
    ((RunOutputStream.init "run1").onError.reconnectTimeout
      = [(RunOutputStream.init "run1").backoff]) ∧
    (((RunOutputStream.init "run1").timerFires).1.eventSource
      = [RunOutputStream.outputUrl "run1" (some 0)]) := by
  obtain ⟨h1, h2, h3, h4, h5, h6, h7, h8⟩ := C9_error_reconnect_protocol
  exact ⟨h2 _ rfl, h4 _ rfl, h6 _ rfl, h8 _ rfl⟩
